import Mathlib

/-!
Verification of the EasyData prototype's agent-network core against its
specification.  The definitions below are a shallow embedding of the Python
sources under ai-agent-network/: pure string manipulation is translated
directly, and the outputs of external collaborators (the LLM completion
services, the execution backend, Redis) appear as explicit parameters, so
every run of the orchestrator is a pure function of those inputs.  Traces of
executed stages, progress updates and status updates are recorded as event
lists so that ordering and "stage was invoked" properties can be stated.
-/

/-! ## String helpers mirroring Python primitives -/

/-- Python's whitespace class as used by str.strip / regex \s. -/
def pyWhitespace (c : Char) : Bool :=
  c = ' ' || c = '\t' || c = '\n' || c = '\r' || c = '\x0b' || c = '\x0c'

/-- Python str.strip() on a character list. -/
def pyStripList (cs : List Char) : List Char :=
  ((cs.dropWhile pyWhitespace).reverse.dropWhile pyWhitespace).reverse

/-- Python str.strip(). -/
def pyStrip (s : String) : String :=
  ⟨pyStripList s.data⟩

/-- Substring scan over character lists. -/
def listContainsSub (needle : List Char) : List Char → Bool
  | [] => needle.isPrefixOf []
  | c :: cs => needle.isPrefixOf (c :: cs) || listContainsSub needle cs

/-- Python substring test: needle in hay. -/
def strContains (hay needle : String) : Bool :=
  listContainsSub needle.data hay.data

/-- Python str.lower() (ASCII), written over the character list so that it
evaluates by kernel reduction. -/
def strToLower (s : String) : String :=
  ⟨s.data.map Char.toLower⟩

/-- Python str(x) on an Optional[str]: None prints as "None"
(crew.py builds error strings with f-string interpolation of .get results). -/
def pyShowOpt : Option String → String
  | some s => s
  | none => "None"

/-- Worker for the Python x.split() word count: counts maximal runs of
non-whitespace characters; the flag records being inside a run. -/
def count_word_runs : Bool → List Char → Nat
  | _, [] => 0
  | inWord, c :: cs =>
    if pyWhitespace c then count_word_runs false cs
    else (if inWord then 0 else 1) + count_word_runs true cs

/-- Python len(x.split()): number of whitespace-separated words
(intent_system.py line 105). -/
def python_word_count (s : String) : Nat :=
  count_word_runs false s.data

/-! ## The validator-output parse cascade (crew.py lines 826-856)

re.sub removes every occurrence of three-backtick fences, preferring the
longer alternative "```json" at each position, scanning left to right. -/

/-- Code-fence stripping worker, structurally recursive on a fuel bound so
that it evaluates by kernel reduction; every step consumes at least one
character, so fuel = length never runs out. -/
def strip_fences_fuel : Nat → List Char → List Char
  | 0, _ => []
  | _ + 1, [] => []
  | fuel + 1, c :: rest =>
    if ("```json".data).isPrefixOf (c :: rest) then
      strip_fences_fuel fuel (rest.drop 6)
    else if ("```".data).isPrefixOf (c :: rest) then
      strip_fences_fuel fuel (rest.drop 2)
    else
      c :: strip_fences_fuel fuel rest

/-- Code-fence stripping: crew.py line 828. -/
def strip_code_fences (cs : List Char) : List Char :=
  strip_fences_fuel cs.length cs

/-- Case-insensitive literal match, returning the rest of the input. -/
def matchCaseInsensitive : List Char → List Char → Option (List Char)
  | [], rest => some rest
  | _ :: _, [] => none
  | p :: ps, c :: cs =>
    if p.toLower = c.toLower then matchCaseInsensitive ps cs else none

/-- Case-sensitive literal match, returning the rest of the input. -/
def matchExactChars : List Char → List Char → Option (List Char)
  | [], rest => some rest
  | _ :: _, [] => none
  | p :: ps, c :: cs =>
    if p = c then matchExactChars ps cs else none

/-- One anchored attempt of the fallback pattern
"valid"\s*:\s*(true|false) with re.IGNORECASE (crew.py line 839). -/
def valid_pattern_at (cs : List Char) : Option Bool :=
  match matchCaseInsensitive ("\"valid\"".data) cs with
  | none => none
  | some r1 =>
    match r1.dropWhile pyWhitespace with
    | ':' :: r2 =>
      let r3 := r2.dropWhile pyWhitespace
      match matchCaseInsensitive ("true".data) r3 with
      | some _ => some true
      | none =>
        match matchCaseInsensitive ("false".data) r3 with
        | some _ => some false
        | none => none
    | _ => none

/-- re.search of the fallback valid pattern: first position that matches. -/
def valid_pattern_search : List Char → Option Bool
  | [] => none
  | c :: cs =>
    match valid_pattern_at (c :: cs) with
    | some b => some b
    | none => valid_pattern_search cs

/-- One anchored attempt of the fallback pattern
"reason"\s*:\s*"([^"]*)" (case-sensitive, crew.py line 840). -/
def reason_pattern_at (cs : List Char) : Option String :=
  match matchExactChars ("\"reason\"".data) cs with
  | none => none
  | some r1 =>
    match r1.dropWhile pyWhitespace with
    | ':' :: r2 =>
      match r2.dropWhile pyWhitespace with
      | '"' :: r3 =>
        let content := r3.takeWhile (fun c => c ≠ '"')
        match r3.dropWhile (fun c => c ≠ '"') with
        | '"' :: _ => some ⟨content⟩
        | _ => none
      | _ => none
    | _ => none

/-- re.search of the fallback reason pattern. -/
def reason_pattern_search : List Char → Option String
  | [] => none
  | c :: cs =>
    match reason_pattern_at (c :: cs) with
    | some s => some s
    | none => reason_pattern_search cs

/-- Relevant projections of a JSON object decoded from validator output:
validTruthy is bool(parsed.get("valid", False)), reason is
parsed.get("reason"). json.loads itself is Python stdlib and appears as the
jsonDecode parameter of the parse cascade. -/
structure ValDict where
  validTruthy : Bool
  reason : Option String
deriving DecidableEq

/-- The runtime type of the raw validation-crew output (crew.py line 826:
str, dict, or anything else). For the dict case only the projections used by
lines 855-856 are kept. -/
inductive ValRaw where
  | str (s : String)
  | dict (validTruthy : Bool) (reason : Option String)
  | other (typeName : String)
deriving DecidableEq

/-- The validation verdict extracted at crew.py lines 855-856. -/
structure Verdict where
  valid : Bool
  reason : String
deriving DecidableEq

/-- The parse cascade of crew.py lines 826-856: strip code fences, strict
JSON decode, regex fallback, with the verdict projected by
bool(validation_output.get("valid", False)). jsonDecode abstracts
json.loads restricted to outputs that decode to a JSON object. -/
def parse_validation_output (jsonDecode : String → Option ValDict) (validation_raw : ValRaw) :
    Verdict :=
  match validation_raw with
  | .str s =>
    let clean := pyStrip ⟨strip_code_fences s.data⟩
    match jsonDecode clean with
    | some parsed => ⟨parsed.validTruthy, parsed.reason.getD "No reason provided"⟩
    | none =>
      let valid_match := valid_pattern_search clean.data
      let reason_match := reason_pattern_search clean.data
      ⟨valid_match == some true, reason_match.getD "No reason available"⟩
  | .dict validTruthy reason => ⟨validTruthy, reason.getD "No reason provided"⟩
  | .other typeName => ⟨false, "Unexpected validation output format: " ++ typeName⟩

/-! ## The deterministic blocklist validator (agents/validation_agent.py) -/

/-- agents/validation_agent.py line 9. -/
def banned_phrases : List String := ["drop", "delete", "truncate", "--", ";--"]

/-- Result shape of ValidationAgent.run. -/
structure AgentCheck where
  success : Bool
  reason : Option String
deriving DecidableEq

/-- ValidationAgent.run (agents/validation_agent.py lines 7-13): reject the
query on the first banned phrase contained in query.lower(); no other check
and no LLM call is made. This agent is imported only by the legacy
OrchestratorAgent, not by crew.py. -/
def ValidationAgent.run (query : String) : AgentCheck :=
  match banned_phrases.find? (fun phrase => strContains (strToLower query) phrase) with
  | some phrase => ⟨false, some ("Query contains unsafe keyword: " ++ phrase)⟩
  | none => ⟨true, none⟩

/-- ValidationSecurityAgent.run (agents/validation_security_agent.py lines
26-56) calls the OpenAI completion service whenever both task and query are
non-empty; only empty inputs short-circuit before the call. -/
def ValidationSecurityAgent.invokesCompletionService (task query : String) : Bool :=
  !(query == "" || task == "")

/-! ## The orchestrator pipeline (crew.py run_crew_pipeline)

The pipeline is a pure function of a PipelineEnv, which packages the
outputs of the external collaborators observed during the run (LLM crews,
backend schema fetch, backend query execution).  The trace records, in
program order, stage executions, progress updates, status updates, and the
OpenAI call made inside the semantic validation agent. -/

/-- Visualization-agent output projections used by crew.py. An absent value
models a falsy (empty) visualization output. -/
structure VizOut where
  chartCode : Option String
  summary : String
deriving DecidableEq

/-- Observable events of one pipeline run. -/
inductive Ev where
  | exec (taskName : String)
  | llmValidator
  | progress (p : Rat)
  | statusSet (s : String)
deriving DecidableEq

/-- The dict returned by run_crew_pipeline. -/
structure RunResult where
  success : Bool
  error : Option String
  text : Option String
  visualization : Option VizOut
  query : Option String
  agentsCalled : List String
deriving DecidableEq

/-- A finished run: returned dict, event trace, final task-context status. -/
structure RunOut where
  result : RunResult
  trace : List Ev
  status : String
deriving DecidableEq

/-- External inputs of one run of run_crew_pipeline.
intentType is the value of the intent_type variable after the parsing block
at crew.py lines 266-291; schemaSuccess/schemaError/schemaTables project the
backend schema response; queryStr is the extracted query string (lines
727-733); valRaw is the raw validation-crew output; jsonDecode is the
behavior of json.loads on validator output; dbError/dbRows/dbOtherKeys
project the execution response dict; vizOutput and chatMessage project the
final fan-out outputs. -/
structure PipelineEnv where
  task : String
  visualize : Bool
  intentType : String
  sysText : String
  convText : String
  exploreText : String
  schemaSuccess : Bool
  schemaError : Option String
  schemaTables : List String
  queryStr : String
  valRaw : ValRaw
  jsonDecode : String → Option ValDict
  dbError : Option String
  dbRows : Option (List String)
  dbOtherKeys : Bool
  vizOutput : Option VizOut
  chatMessage : String

/-- IntentType of intent_system.py (the richer taxonomy). -/
inductive IntentType where
  | QUERY
  | CONVERSATION
  | SYSTEM_QUESTION
  | MULTI_DB_QUERY
  | DATA_EXPLORATION
  | COMMAND
  | AMBIGUOUS
deriving DecidableEq

/-- Python Enum .name. -/
def IntentType.name : IntentType → String
  | .QUERY => "QUERY"
  | .CONVERSATION => "CONVERSATION"
  | .SYSTEM_QUESTION => "SYSTEM_QUESTION"
  | .MULTI_DB_QUERY => "MULTI_DB_QUERY"
  | .DATA_EXPLORATION => "DATA_EXPLORATION"
  | .COMMAND => "COMMAND"
  | .AMBIGUOUS => "AMBIGUOUS"

/-- Branch guard of crew.py line 295. -/
def isSystemBranch (intent_type : String) : Bool :=
  intent_type == "system_question" || intent_type == IntentType.SYSTEM_QUESTION.name

/-- Branch guard of crew.py line 396. -/
def isConversationBranch (intent_type : String) : Bool :=
  intent_type == "conversation" || intent_type == "unknown" || intent_type == "ambiguous"
    || intent_type == IntentType.CONVERSATION.name

/-- Branch guard of crew.py line 497. -/
def isExplorationBranch (intent_type : String) : Bool :=
  intent_type == IntentType.DATA_EXPLORATION.name

/-- Default system-question response, crew.py line 350. -/
def defaultSystemResponse : String :=
  "I can help you with information about your database connections and system capabilities. What would you like to know?"

/-- Default conversation response, crew.py line 451. -/
def defaultConversationResponse : String :=
  "I'm here to help with your database queries or chat with you. What would you like to do?"

/-- Truthiness of the db_response dict (crew.py line 991: not db_response). -/
def dbTruthy (env : PipelineEnv) : Bool :=
  env.dbError.isSome || env.dbRows.isSome || env.dbOtherKeys

/-- Shallow embedding of run_crew_pipeline (crew.py lines 173-1180), with
WebSocket sends and context writes (best-effort, exception-swallowed side
channels) elided.  Event order follows program order. -/
def run_crew_pipeline (env : PipelineEnv) : RunOut :=
  let tr0 : List Ev :=
    [.statusSet "in_progress", .progress 0.1, .exec "intent_detection_task"]
  if isSystemBranch env.intentType then
    let response_text := if env.sysText == "" then defaultSystemResponse else env.sysText
    { result := { success := true, error := none, text := some response_text,
                  visualization := none, query := none,
                  agentsCalled := ["chat_agent"] },
      trace := tr0 ++ [.exec "system_question_task", .progress 1, .statusSet "completed"],
      status := "completed" }
  else if isConversationBranch env.intentType then
    let response_text :=
      if env.convText == "" then defaultConversationResponse else env.convText
    { result := { success := true, error := none, text := some response_text,
                  visualization := none, query := none,
                  agentsCalled := ["chat_agent"] },
      trace := tr0 ++ [.exec "chat_response_task", .progress 1, .statusSet "completed"],
      status := "completed" }
  else if isExplorationBranch env.intentType then
    { result := { success := true, error := none, text := some env.exploreText,
                  visualization := none, query := none,
                  agentsCalled := ["chat_agent", "schema_agent"] },
      trace := tr0 ++ [.exec "exploration_task", .progress 1, .statusSet "completed"],
      status := "completed" }
  else
    let tr1 := tr0 ++ [.progress 0.2, .exec "fetch_schema"]
    if !env.schemaSuccess then
      { result := { success := false,
                    error := some ("Could not retrieve database schema: "
                      ++ pyShowOpt env.schemaError),
                    text := none, visualization := none, query := none,
                    agentsCalled := ["chat_agent", "schema_agent"] },
        trace := tr1 ++ [.statusSet "failed"], status := "failed" }
    else if env.schemaTables.isEmpty then
      { result := { success := false,
                    error := some "No tables found in database schema.",
                    text := none, visualization := none, query := none,
                    agentsCalled := ["chat_agent", "schema_agent"] },
        trace := tr1 ++ [.statusSet "failed"], status := "failed" }
    else
      let tr2 := tr1 ++ [.progress 0.3, .exec "query_task"]
      if (pyStrip env.queryStr).length < 5 then
        { result := { success := false,
                      error := some "Failed to generate a valid database query for your request.",
                      text := none, visualization := none, query := none,
                      agentsCalled := ["chat_agent", "schema_agent", "query_agent"] },
          trace := tr2 ++ [.statusSet "failed"], status := "failed" }
      else
        let tr3 := tr2 ++ [.progress 0.5, .exec "validation_task"]
          ++ (if ValidationSecurityAgent.invokesCompletionService env.task env.queryStr
              then [Ev.llmValidator] else [])
        let verdict := parse_validation_output env.jsonDecode env.valRaw
        if !verdict.valid then
          { result := { success := false,
                        error := some ("Query failed validation checks: " ++ verdict.reason),
                        text := none, visualization := none, query := none,
                        agentsCalled := ["chat_agent", "query_agent", "validation_agent"] },
            trace := tr3 ++ [.statusSet "failed"], status := "failed" }
        else if pyStrip env.queryStr == "" then
          { result := { success := false,
                        error := some "Query generation did not return a valid string.",
                        text := none, visualization := none, query := none,
                        agentsCalled := ["chat_agent", "query_agent", "validation_agent"] },
            trace := tr3 ++ [.statusSet "failed"], status := "failed" }
        else
          let tr4 := tr3 ++ [.progress 0.6, .exec "execute_query"]
          if env.dbError.isSome then
            { result := { success := false,
                          error := some ("Database query execution failed: "
                            ++ pyShowOpt env.dbError),
                          text := none, visualization := none, query := none,
                          agentsCalled := ["chat_agent", "query_agent", "validation_agent"] },
              trace := tr4 ++ [.statusSet "failed"], status := "failed" }
          else if !(dbTruthy env) || env.dbRows.isNone then
            { result := { success := false,
                          error := some "No data returned from database.",
                          text := none, visualization := none,
                          query := some env.queryStr,
                          agentsCalled := ["chat_agent", "query_agent", "validation_agent"] },
              trace := tr4, status := "in_progress" }
          else
            let agents1 := ["chat_agent", "query_agent", "validation_agent"]
            let tr5 := if env.visualize then tr4 ++ [Ev.progress 0.8] else tr4
            let agents2 := if env.visualize then agents1 ++ ["visualization_agent"] else agents1
            let tr6 := tr5 ++ [.progress 0.9]
            let agents3 := agents2 ++ ["chat_agent"]
            let tr7 := tr6 ++ (if env.visualize then [Ev.exec "visualization_task"] else [])
              ++ [.exec "chat_task"]
            let finalViz := if env.visualize then env.vizOutput else none
            { result := { success := true, error := none,
                          text := some env.chatMessage,
                          visualization := finalViz,
                          query := some env.queryStr,
                          agentsCalled := agents3 },
              trace := tr7 ++ [.progress 1, .statusSet "completed"],
              status := "completed" }

/-- The run proceeds past the three short-circuit intent branches. -/
def onQueryPath (env : PipelineEnv) : Bool :=
  !isSystemBranch env.intentType && !isConversationBranch env.intentType
    && !isExplorationBranch env.intentType

/-- The run reaches the validation stage. -/
def reachesValidation (env : PipelineEnv) : Bool :=
  onQueryPath env && env.schemaSuccess && !env.schemaTables.isEmpty
    && !((pyStrip env.queryStr).length < 5)

/-- The run reaches the execution stage. -/
def reachesExecution (env : PipelineEnv) : Bool :=
  reachesValidation env && (parse_validation_output env.jsonDecode env.valRaw).valid
    && !(pyStrip env.queryStr == "")

/-- Stage adapter responsible for each executed pipeline task. -/
def agentOfTask : String → String
  | "intent_detection_task" => "chat_agent"
  | "system_question_task" => "chat_agent"
  | "chat_response_task" => "chat_agent"
  | "exploration_task" => "chat_agent"
  | "fetch_schema" => "schema_agent"
  | "query_task" => "query_agent"
  | "validation_task" => "validation_agent"
  | "execute_query" => "backend_bridge"
  | "visualization_task" => "visualization_agent"
  | "chat_task" => "chat_agent"
  | _ => "unknown"

/-- Agents that actually executed during a run, in order. -/
def executedAgents (tr : List Ev) : List String :=
  tr.filterMap (fun e =>
    match e with
    | .exec t => some (agentOfTask t)
    | _ => none)

/-- Progress values published during a run, in order. -/
def progressValues (tr : List Ev) : List Rat :=
  tr.filterMap (fun e =>
    match e with
    | .progress p => some p
    | _ => none)

/-! ## Intent classification (intent_system.py)

The regex engine is Python stdlib; whether re.search finds a pattern in the
lowered task, and whether re.findall finds more than one occurrence, appear
as the oracles search and multi.  All confidence arithmetic and control flow
are translated directly. -/

/-- The classification dict of intent_system.py. -/
structure IntentResult where
  intent_type : String
  confidence : Rat
  reasoning : String
deriving DecidableEq

/-- INTENT_PATTERNS of intent_system.py lines 25-53 (iteration order of the
dict literal). -/
def INTENT_PATTERNS : List (IntentType × List String) :=
  [ (.QUERY, ["show me .* from", "what is the .* of", "how many", "find all",
      "search for", "select", "list", "count", "average",
      "calculate", "sum", "where", "group by"]),
    (.CONVERSATION, ["^hi$", "^hello$", "^hey$", "thanks", "thank you", "help me",
      "how are you", "what can you do", "who are you"]),
    (.SYSTEM_QUESTION, ["what database", "which database", "database connected",
      "what connections", "show databases", "list databases",
      "system status", "are you working", "is the system"]),
    (.MULTI_DB_QUERY, ["across all( my)? (database|db)s", "all databases", "compare .* across",
      "join .* from .* and", "data from .* and .* database"]),
    (.DATA_EXPLORATION, ["what tables", "show me the schema", "what columns",
      "table structure", "database structure", "what data types",
      "what are the relationships", "describe"]),
    (.COMMAND, ["switch to", "connect to", "use database", "change database",
      "set current database", "disconnect", "reconnect"]) ]

/-- Confidence attached to a pattern match (intent_system.py lines 102-108):
base 0.7; very short inputs score 0.9 for CONVERSATION and 0.5 otherwise;
multiple matches add 0.1. -/
def patternConfidence (task_lower : String) (multi : String → String → Bool)
    (intent_type : IntentType) (pattern : String) : Rat :=
  if python_word_count task_lower ≤ 3 then
    (if intent_type = .CONVERSATION then Rat.divInt 9 10 else Rat.divInt 5 10)
  else if multi pattern task_lower then Rat.divInt 7 10 + Rat.divInt 1 10
  else Rat.divInt 7 10

/-- One iteration of the pattern loop (intent_system.py lines 100-116):
keep the better of the current best match and this pattern. -/
def rule_step (task_lower : String) (search multi : String → String → Bool)
    (best : IntentResult) (intent_type : IntentType) (pattern : String) : IntentResult :=
  if search pattern task_lower then
    let confidence := patternConfidence task_lower multi intent_type pattern
    if best.confidence < confidence then
      { intent_type := intent_type.name, confidence := confidence,
        reasoning := "Matched pattern: " ++ pattern }
    else best
  else best

/-- IntentClassifier._apply_rules (intent_system.py lines 90-118). -/
def apply_rules (search multi : String → String → Bool) (task : String) : IntentResult :=
  let task_lower := pyStrip (strToLower task)
  INTENT_PATTERNS.foldl
    (fun best pair => pair.2.foldl
      (fun b pattern => rule_step task_lower search multi b pair.1 pattern) best)
    { intent_type := IntentType.AMBIGUOUS.name, confidence := Rat.divInt 3 10,
      reasoning := "No clear pattern match" }

/-- IntentClassifier.classify_intent (intent_system.py lines 55-88):
rule result first; above 0.85 return it at once, otherwise consult the LLM
(llm_result is the value _classify_with_llm would produce, including its
internal Ambiguous fallbacks) and keep whichever scores strictly higher.
The Bool records whether the LLM escalation path was invoked. -/
def classify_intent (search multi : String → String → Bool)
    (llm_result : IntentResult) (task : String) : IntentResult × Bool :=
  let rule_result := apply_rules search multi task
  if Rat.divInt 85 100 < rule_result.confidence then (rule_result, false)
  else if rule_result.confidence < llm_result.confidence then (llm_result, true)
  else (rule_result, true)

/-! ## The retrying service client (utils/api_client.py)

Each attempt of _call_api either returns a response or raises a wrapped
AI-service error; the raw per-attempt outcome is the behavior parameter.
The loop at lines 176-187 (identical in shape to lines 83-94 for the OpenAI
variant) retries every exception class alike and re-raises on the last
attempt. -/

/-- A completion-service response. -/
structure ApiResponse where
  content : String
deriving DecidableEq

/-- Raw per-attempt failure of the underlying HTTP call. -/
inductive ApiFailure where
  | timeout (msg : String)
  | httpError (status : Nat) (detail : String)
  | unexpected (msg : String)
deriving DecidableEq

/-- The structured error object raised by _call_api (utils/api_client.py
lines 138-174, via create_ai_service_error). -/
structure AIServiceError where
  message : String
  severity : String
deriving DecidableEq

/-- Wrapping performed inside _call_api for the Anthropic variant. -/
def create_ai_service_error_for (timeout : Nat) : ApiFailure → AIServiceError
  | .timeout _ => ⟨"API call timed out after " ++ toString timeout ++ "s", "MEDIUM"⟩
  | .httpError status detail => ⟨"HTTP error " ++ toString status ++ ": " ++ detail, "HIGH"⟩
  | .unexpected msg => ⟨"Unexpected error: " ++ msg, "HIGH"⟩

/-- How a call through APIClient terminates: a normal return, an exception
propagated to the caller, or Python's implicit None when the loop body never
runs (retries = 0). -/
inductive ApiOutcome where
  | returned (r : ApiResponse)
  | raised (e : AIServiceError)
  | fellThrough
deriving DecidableEq

/-- The retry loop of utils/api_client.py lines 176-187: iterate attempts
1..retries; any exception on the last attempt is re-raised, any earlier one
leads to backoff and retry.  Returns the outcome and the number of attempts
made. -/
def retry_loop (call_api : Nat → Except AIServiceError ApiResponse) (retries : Nat) :
    List Nat → Nat → ApiOutcome × Nat
  | [], made => (.fellThrough, made)
  | attempt :: rest, made =>
    match call_api attempt with
    | .ok r => (.returned r, made + 1)
    | .error e =>
      if attempt == retries then (.raised e, made + 1)
      else retry_loop call_api retries rest (made + 1)

/-- APIClient.call_anthropic_api (utils/api_client.py lines 96-187): wrap
each raw attempt outcome as _call_api does, then run the retry loop over
attempts 1..retries. -/
def call_anthropic_api (raw : Nat → Except ApiFailure ApiResponse) (retries timeout : Nat) :
    ApiOutcome × Nat :=
  retry_loop
    (fun attempt => (raw attempt).mapError (create_ai_service_error_for timeout))
    retries (List.range' 1 retries) 0

/-! ## The context manager (utils/context_manager.py)

Context payloads are association lists from string keys to string values;
the _last_updated metadata added by set_context is kept as a separate field
of the cache entry.  Time is an explicit rational parameter.  Whether the
Redis server is reachable during a given call is the redisUp parameter; the
backend choice made at initialization is the useRedis field, fixed for the
instance's lifetime. -/

/-- A context dict. -/
abbrev Ctx := List (String × String)

/-- Association-list store: replace the value under an existing key, else
append (dict assignment semantics). -/
def setAssoc {β : Type} (l : List (String × β)) (k : String) (v : β) : List (String × β) :=
  if l.any (fun kv => kv.1 == k) then
    l.map (fun kv => if kv.1 == k then (k, v) else kv)
  else l ++ [(k, v)]

/-- Python dict.update: apply each key of the update in order,
last write wins per key. -/
def dictUpdate (d upd : Ctx) : Ctx :=
  upd.foldl (fun acc kv => setAssoc acc kv.1 kv.2) d

/-- One in-memory cache entry (utils/context_manager.py lines 120-124). -/
structure MemEntry where
  data : Ctx
  lastUpdated : Rat
  expiry : Rat
deriving DecidableEq

/-- The state of a ContextManager instance. -/
structure CMState where
  useRedis : Bool
  expiryTime : Nat
  memCache : List (String × MemEntry)
  redisStore : List (String × Ctx)
deriving DecidableEq

/-- Python truthy or on optional ints: None and 0 both fall through. -/
def pyOrNat (a : Option Nat) (b : Nat) : Nat :=
  match a with
  | some n => if n = 0 then b else n
  | none => b

/-- ContextManager.DEFAULT_EXPIRY_TIME (utils/context_manager.py line 25). -/
def DEFAULT_EXPIRY_TIME : Nat := 600

/-- utils/settings.py line 28: int(os.getenv("REDIS_CONTEXT_EXPIRE_SECONDS",
"300")); the parameter is the environment override. -/
def REDIS_CONTEXT_EXPIRE_SECONDS (envVar : Option Nat) : Nat :=
  envVar.getD 300

/-- The expiry time fixed at _initialize (utils/context_manager.py line 40):
expiry_time or REDIS_CONTEXT_EXPIRE_SECONDS or DEFAULT_EXPIRY_TIME. -/
def effective_expiry_time (expiry_arg : Option Nat) (envVar : Option Nat) : Nat :=
  pyOrNat expiry_arg (pyOrNat (some (REDIS_CONTEXT_EXPIRE_SECONDS envVar)) DEFAULT_EXPIRY_TIME)

/-- Constructor arguments of ContextManager.__new__. -/
structure InitArgs where
  redis_url : Option String
  expiry_time : Option Nat
deriving DecidableEq

/-- ContextManager.__new__ (utils/context_manager.py lines 27-58): the
singleton is initialized exactly once; a second construction returns the
existing instance untouched, whatever the arguments and whatever Redis
availability is now.  At first construction the Redis-vs-memory decision is
made from the ping result at that moment. -/
def ContextManager.new (existing : Option CMState) (args : InitArgs)
    (redisUpAtInit : Bool) (envVar : Option Nat) : CMState :=
  match existing with
  | some inst => inst
  | none =>
    { useRedis := redisUpAtInit,
      expiryTime := effective_expiry_time args.expiry_time envVar,
      memCache := [],
      redisStore := [] }

/-- Redis key for a user's context (utils/context_manager.py line 70). -/
def contextKey (user_id : String) : String := "user:" ++ user_id ++ ":context"

/-- ContextManager.get_context (utils/context_manager.py lines 60-91).  On
the Redis branch an unreachable server raises inside the try block, the
exception is swallowed, and the fall-through returns None; the memory map is
never consulted.  On the memory branch an expired entry is deleted and None
returned. -/
def ContextManager.get_context (st : CMState) (redisUp : Bool) (now : Rat)
    (user_id : String) : Option Ctx × CMState :=
  let key := contextKey user_id
  if st.useRedis then
    if redisUp then (st.redisStore.lookup key, st)
    else (none, st)
  else
    match st.memCache.lookup key with
    | some entry =>
      if now < entry.expiry then (some entry.data, st)
      else (none, { st with memCache := st.memCache.filter (fun kv => !(kv.1 == key)) })
    | none => (none, st)

/-- ContextManager.set_context (utils/context_manager.py lines 93-129).  On
the Redis branch an unreachable server raises inside the try block and the
method returns False without touching the memory map.  On the memory branch
the entry is stored with expiry now + expiry_time. -/
def ContextManager.set_context (st : CMState) (redisUp : Bool) (now : Rat)
    (user_id : String) (context : Ctx) (expiry : Option Nat) : Bool × CMState :=
  let key := contextKey user_id
  let expiry_time := pyOrNat expiry st.expiryTime
  if st.useRedis then
    if redisUp then (true, { st with redisStore := setAssoc st.redisStore key context })
    else (false, st)
  else
    let entry : MemEntry :=
      { data := context, lastUpdated := now, expiry := now + (expiry_time : Rat) }
    (true, { st with memCache := setAssoc st.memCache key entry })

/-- ContextManager.append_to_context (utils/context_manager.py lines
131-150): read-modify-write through get_context and set_context. -/
def ContextManager.append_to_context (st : CMState) (redisUp : Bool) (now : Rat)
    (user_id : String) (update_data : Ctx) (expiry : Option Nat) : Bool × CMState :=
  let read := ContextManager.get_context st redisUp now user_id
  let current := read.1.getD []
  let merged := dictUpdate current update_data
  ContextManager.set_context read.2 redisUp now user_id merged expiry

/-! ## Concrete scenario environments (used by witnesses and counterexamples) -/

/-- A run with query intent where everything succeeds and rows come back. -/
def envBase : PipelineEnv :=
  { task := "Show all customers"
  , visualize := true
  , intentType := "query"
  , sysText := ""
  , convText := ""
  , exploreText := ""
  , schemaSuccess := true
  , schemaError := none
  , schemaTables := ["customers"]
  , queryStr := "SELECT * FROM customers"
  , valRaw := ValRaw.dict true (some "The query is safe.")
  , jsonDecode := fun _ => none
  , dbError := none
  , dbRows := some ["row1", "row2"]
  , dbOtherKeys := false
  , vizOutput := some { chartCode := some "chart code", summary := "bar chart" }
  , chatMessage := "Here are your customers." }

/-- A run whose generated query contains the blocklisted keyword DROP and
whose semantic validator nevertheless answers valid. -/
def envDropQuery : PipelineEnv :=
  { envBase with
      task := "Drop the customers table"
    , queryStr := "DROP TABLE customers;"
    , valRaw := ValRaw.dict true (some "Looks fine.") }

/-- A run whose semantic validator rejects the query. -/
def envValidationFails : PipelineEnv :=
  { envBase with
      queryStr := "DROP TABLE customers; --"
    , valRaw := ValRaw.dict false (some "Query contains dangerous operations (DROP)") }

/-- A run whose execution returns a present but empty rows list. -/
def envEmptyRows : PipelineEnv :=
  { envBase with
      dbRows := some []
    , chatMessage := "The query returned no rows." }

/-- A run whose execution returns an error. -/
def envDbError : PipelineEnv :=
  { envBase with dbError := some "connection reset" }

/-- A raw validator output that is neither JSON nor fallback-matchable. -/
def unparsableValidatorOutput : String := "```The query looks fine to me!```"

/-- Per-attempt behavior of a permanently failing non-transient (HTTP 400)
completion-service call. -/
def rawAlways400 : Nat → Except ApiFailure ApiResponse :=
  fun _ => Except.error (ApiFailure.httpError 400 "invalid request")

/-- Intent-rule search oracle of a run where only the pattern matching the
greeting "hi" fires. -/
def searchOnlyHi : String → String → Bool :=
  fun pattern _ => pattern == "^hi$"

/-- Intent-rule multiple-occurrence oracle: no pattern occurs twice. -/
def multiNever : String → String → Bool :=
  fun _ _ => false

/-- A high-confidence LLM classification used to show it is ignored. -/
def llmQueryResult : IntentResult :=
  { intent_type := "QUERY", confidence := Rat.divInt 99 100, reasoning := "llm call" }

/-- A ContextManager instance that chose the Redis backend at first
construction. -/
def cmRedisInstance : CMState :=
  { useRedis := true
  , expiryTime := 300
  , memCache := []
  , redisStore := [("user:u1:context", [("task", "hello")])] }

/-- A ContextManager instance that chose the in-memory backend at first
construction. -/
def cmMemoryInstance : CMState :=
  { useRedis := false
  , expiryTime := 300
  , memCache := []
  , redisStore := [] }

/-! ## Theorems -/

/-- Helper: destructure the query-path guard. -/
theorem queryPath_conds {env : PipelineEnv} (h : onQueryPath env = true) :
    isSystemBranch env.intentType = false ∧ isConversationBranch env.intentType = false ∧
    isExplorationBranch env.intentType = false := by
  simp only [onQueryPath, Bool.and_eq_true, Bool.not_eq_true'] at h
  exact ⟨h.1.1, h.1.2, h.2⟩

/-- Helper: destructure the reaches-validation guard. -/
theorem reachesValidation_parts {env : PipelineEnv} (h : reachesValidation env = true) :
    onQueryPath env = true ∧ env.schemaSuccess = true ∧ env.schemaTables.isEmpty = false ∧
    ¬((pyStrip env.queryStr).length < 5) := by
  simp only [reachesValidation, Bool.and_eq_true, Bool.not_eq_true',
    decide_eq_false_iff_not] at h
  exact ⟨h.1.1.1, h.1.1.2, h.1.2, h.2⟩

/-- Helper: a query long enough to pass the length gate is non-empty, and so
is its stripped form. -/
theorem queryStr_nonempty {env : PipelineEnv} (h5 : ¬((pyStrip env.queryStr).length < 5)) :
    (env.queryStr == "") = false ∧ (pyStrip env.queryStr == "") = false := by
  constructor
  · rw [beq_eq_false_iff_ne]
    intro hq
    apply h5
    rw [hq]
    decide
  · rw [beq_eq_false_iff_ne]
    intro hq
    apply h5
    rw [hq]
    decide

/-- C2: for every raw semantic-validator output that is not decodable as
JSON after code-fence stripping and does not match the fallback pattern for
an explicit boolean valid field, the parse cascade yields an invalid
verdict; it never defaults to valid for unparsable output. -/
theorem c2_parse_cascade_fail_closed
    (jsonDecode : String → Option ValDict) (s : String)
    (hjson : jsonDecode (pyStrip ⟨strip_code_fences s.data⟩) = none)
    (hfallback : valid_pattern_search (pyStrip ⟨strip_code_fences s.data⟩).data = none) :
    (parse_validation_output jsonDecode (ValRaw.str s)).valid = false := by
  unfold parse_validation_output
  simp [hjson, hfallback]

/-- Witness for C2 at a concrete unparsable validator output. -/
theorem c2_parse_cascade_fail_closed_witness :
    ((fun _ : String => (none : Option ValDict))
        (pyStrip ⟨strip_code_fences unparsableValidatorOutput.data⟩) = none)
    ∧ valid_pattern_search (pyStrip ⟨strip_code_fences unparsableValidatorOutput.data⟩).data
        = none
    ∧ (parse_validation_output (fun _ => none) (ValRaw.str unparsableValidatorOutput)).valid
        = false :=
  ⟨rfl, by decide,
    c2_parse_cascade_fail_closed (fun _ => none) unparsableValidatorOutput rfl (by decide)⟩

/-- C1 (amended): queries containing a blocklisted phrase (drop, delete,
truncate, the chaining/comment markers "--" and ";--"; the spec's "alter"
and "exec" are not in the list) are rejected by the standalone blocklist
validator ValidationAgent.run, which performs no other check; but the crew
pipeline's validation stage consists only of the semantic
ValidationSecurityAgent, whose completion-service call is made for every
validated query — blocklisted or not — whenever task and query are
non-empty. -/
theorem c1_blocklist_amended :
    (∀ query : String,
        (∃ phrase ∈ banned_phrases, strContains (strToLower query) phrase = true) →
        (ValidationAgent.run query).success = false)
    ∧ (∀ env : PipelineEnv, reachesValidation env = true → env.task ≠ "" →
        Ev.llmValidator ∈ (run_crew_pipeline env).trace) := by
  constructor
  · intro query hex
    have hsome :
        (banned_phrases.find? (fun phrase => strContains (strToLower query) phrase)).isSome := by
      rw [List.find?_isSome]
      obtain ⟨p, hp, hc⟩ := hex
      exact ⟨p, hp, hc⟩
    unfold ValidationAgent.run
    cases hfind : banned_phrases.find? (fun phrase => strContains (strToLower query) phrase) with
    | none => rw [hfind] at hsome; simp at hsome
    | some p => simp
  · intro env hreach htask
    obtain ⟨hqp, hss, htab, hlen⟩ := reachesValidation_parts hreach
    obtain ⟨hsys, hconv, hexp⟩ := queryPath_conds hqp
    obtain ⟨hq, hqs⟩ := queryStr_nonempty hlen
    have ht : (env.task == "") = false := beq_eq_false_iff_ne.mpr htask
    have hinv : ValidationSecurityAgent.invokesCompletionService env.task env.queryStr
        = true := by
      simp [ValidationSecurityAgent.invokesCompletionService, hq, ht]
    unfold run_crew_pipeline
    simp only [hsys, hconv, hexp, hss, htab, hqs, hinv, Bool.not_true, Bool.false_eq_true,
      if_false, ite_false, Bool.true_eq_false]
    rw [if_neg hlen]
    repeat' split
    all_goals simp_all [List.mem_append]

/-- Witness for C1 at a concrete blocklisted query and a concrete run. -/
theorem c1_blocklist_amended_witness :
    (ValidationAgent.run "DROP TABLE customers;").success = false
    ∧ Ev.llmValidator ∈ (run_crew_pipeline envDropQuery).trace :=
  ⟨c1_blocklist_amended.1 "DROP TABLE customers;" ⟨"drop", by decide, by decide⟩,
   c1_blocklist_amended.2 envDropQuery (by decide) (by decide)⟩

/-- C1 counterexample: a generated query containing the blocklisted keyword
DROP still reaches the semantic validator in the crew pipeline — the
completion service is invoked, and with a validator answering valid the
verdict is valid and the run succeeds, so the claimed fail-fast blocklist
gate does not exist in the pipeline. -/
theorem c1_pipeline_counterexample :
    strContains (strToLower envDropQuery.queryStr) "drop" = true
    ∧ "drop" ∈ banned_phrases
    ∧ Ev.llmValidator ∈ (run_crew_pipeline envDropQuery).trace
    ∧ (run_crew_pipeline envDropQuery).result.success = true := by decide

/-- Helper: destructure the reaches-execution guard. -/
theorem reachesExecution_parts {env : PipelineEnv} (h : reachesExecution env = true) :
    reachesValidation env = true
    ∧ (parse_validation_output env.jsonDecode env.valRaw).valid = true
    ∧ (pyStrip env.queryStr == "") = false := by
  simp only [reachesExecution, Bool.and_eq_true, Bool.not_eq_true'] at h
  exact ⟨h.1.1, h.1.2, h.2⟩

/-! ### Branch evaluation lemmas for run_crew_pipeline

One lemma per control-flow branch of crew.py, each reducing a run to the
literal returned dict, trace and status of that branch. -/
theorem rcp_eq_system (env : PipelineEnv) (h1 : isSystemBranch env.intentType = true) :
    run_crew_pipeline env =
      { result := { success := true, error := none,
                    text := some (if env.sysText == "" then defaultSystemResponse
                      else env.sysText),
                    visualization := none, query := none, agentsCalled := ["chat_agent"] },
        trace := [Ev.statusSet "in_progress", Ev.progress 0.1, Ev.exec "intent_detection_task",
          Ev.exec "system_question_task", Ev.progress 1, Ev.statusSet "completed"],
        status := "completed" } := by
  unfold run_crew_pipeline
  rw [if_pos h1]
  rfl

theorem rcp_eq_conversation (env : PipelineEnv) (h1 : isSystemBranch env.intentType = false)
    (h2 : isConversationBranch env.intentType = true) :
    run_crew_pipeline env =
      { result := { success := true, error := none,
                    text := some (if env.convText == "" then defaultConversationResponse
                      else env.convText),
                    visualization := none, query := none, agentsCalled := ["chat_agent"] },
        trace := [Ev.statusSet "in_progress", Ev.progress 0.1, Ev.exec "intent_detection_task",
          Ev.exec "chat_response_task", Ev.progress 1, Ev.statusSet "completed"],
        status := "completed" } := by
  unfold run_crew_pipeline
  rw [if_neg (by simp [h1]), if_pos h2]
  rfl

theorem rcp_eq_exploration (env : PipelineEnv) (h1 : isSystemBranch env.intentType = false)
    (h2 : isConversationBranch env.intentType = false)
    (h3 : isExplorationBranch env.intentType = true) :
    run_crew_pipeline env =
      { result := { success := true, error := none, text := some env.exploreText,
                    visualization := none, query := none,
                    agentsCalled := ["chat_agent", "schema_agent"] },
        trace := [Ev.statusSet "in_progress", Ev.progress 0.1, Ev.exec "intent_detection_task",
          Ev.exec "exploration_task", Ev.progress 1, Ev.statusSet "completed"],
        status := "completed" } := by
  unfold run_crew_pipeline
  rw [if_neg (by simp [h1]), if_neg (by simp [h2]), if_pos h3]
  rfl

theorem rcp_eq_schema_error (env : PipelineEnv) (hq : onQueryPath env = true)
    (h4 : env.schemaSuccess = false) :
    run_crew_pipeline env =
      { result := { success := false,
                    error := some ("Could not retrieve database schema: "
                      ++ pyShowOpt env.schemaError),
                    text := none, visualization := none, query := none,
                    agentsCalled := ["chat_agent", "schema_agent"] },
        trace := [Ev.statusSet "in_progress", Ev.progress 0.1, Ev.exec "intent_detection_task",
          Ev.progress 0.2, Ev.exec "fetch_schema", Ev.statusSet "failed"],
        status := "failed" } := by
  obtain ⟨h1, h2, h3⟩ := queryPath_conds hq
  unfold run_crew_pipeline
  rw [if_neg (by simp [h1]), if_neg (by simp [h2]), if_neg (by simp [h3]),
    if_pos (by simp [h4])]
  rfl

theorem rcp_eq_no_tables (env : PipelineEnv) (hq : onQueryPath env = true)
    (h4 : env.schemaSuccess = true) (h5 : env.schemaTables.isEmpty = true) :
    run_crew_pipeline env =
      { result := { success := false,
                    error := some "No tables found in database schema.",
                    text := none, visualization := none, query := none,
                    agentsCalled := ["chat_agent", "schema_agent"] },
        trace := [Ev.statusSet "in_progress", Ev.progress 0.1, Ev.exec "intent_detection_task",
          Ev.progress 0.2, Ev.exec "fetch_schema", Ev.statusSet "failed"],
        status := "failed" } := by
  obtain ⟨h1, h2, h3⟩ := queryPath_conds hq
  unfold run_crew_pipeline
  rw [if_neg (by simp [h1]), if_neg (by simp [h2]), if_neg (by simp [h3]),
    if_neg (by simp [h4]), if_pos h5]
  rfl

theorem rcp_eq_short_query (env : PipelineEnv) (hq : onQueryPath env = true)
    (h4 : env.schemaSuccess = true) (h5 : env.schemaTables.isEmpty = false)
    (h6 : (pyStrip env.queryStr).length < 5) :
    run_crew_pipeline env =
      { result := { success := false,
                    error := some "Failed to generate a valid database query for your request.",
                    text := none, visualization := none, query := none,
                    agentsCalled := ["chat_agent", "schema_agent", "query_agent"] },
        trace := [Ev.statusSet "in_progress", Ev.progress 0.1, Ev.exec "intent_detection_task",
          Ev.progress 0.2, Ev.exec "fetch_schema", Ev.progress 0.3, Ev.exec "query_task",
          Ev.statusSet "failed"],
        status := "failed" } := by
  obtain ⟨h1, h2, h3⟩ := queryPath_conds hq
  unfold run_crew_pipeline
  rw [if_neg (by simp [h1]), if_neg (by simp [h2]), if_neg (by simp [h3]),
    if_neg (by simp [h4]), if_neg (by simp [h5]), if_pos h6]
  rfl

theorem rcp_eq_invalid_verdict (env : PipelineEnv) (hq : onQueryPath env = true)
    (h4 : env.schemaSuccess = true) (h5 : env.schemaTables.isEmpty = false)
    (h6 : ¬((pyStrip env.queryStr).length < 5))
    (h7 : (parse_validation_output env.jsonDecode env.valRaw).valid = false) :
    run_crew_pipeline env =
      { result := { success := false,
                    error := some ("Query failed validation checks: "
                      ++ (parse_validation_output env.jsonDecode env.valRaw).reason),
                    text := none, visualization := none, query := none,
                    agentsCalled := ["chat_agent", "query_agent", "validation_agent"] },
        trace := ([Ev.statusSet "in_progress", Ev.progress 0.1, Ev.exec "intent_detection_task",
          Ev.progress 0.2, Ev.exec "fetch_schema", Ev.progress 0.3, Ev.exec "query_task",
          Ev.progress 0.5, Ev.exec "validation_task"]
          ++ (if ValidationSecurityAgent.invokesCompletionService env.task env.queryStr
              then [Ev.llmValidator] else []))
          ++ [Ev.statusSet "failed"],
        status := "failed" } := by
  obtain ⟨h1, h2, h3⟩ := queryPath_conds hq
  unfold run_crew_pipeline
  rw [if_neg (by simp [h1]), if_neg (by simp [h2]), if_neg (by simp [h3]),
    if_neg (by simp [h4]), if_neg (by simp [h5]), if_neg h6, if_pos (by simp [h7])]
  rfl

theorem rcp_eq_db_error (env : PipelineEnv) (hq : onQueryPath env = true)
    (h4 : env.schemaSuccess = true) (h5 : env.schemaTables.isEmpty = false)
    (h6 : ¬((pyStrip env.queryStr).length < 5))
    (h7 : (parse_validation_output env.jsonDecode env.valRaw).valid = true)
    (h8 : (pyStrip env.queryStr == "") = false)
    (h9 : env.dbError.isSome = true) :
    run_crew_pipeline env =
      { result := { success := false,
                    error := some ("Database query execution failed: "
                      ++ pyShowOpt env.dbError),
                    text := none, visualization := none, query := none,
                    agentsCalled := ["chat_agent", "query_agent", "validation_agent"] },
        trace := (([Ev.statusSet "in_progress", Ev.progress 0.1,
          Ev.exec "intent_detection_task", Ev.progress 0.2, Ev.exec "fetch_schema",
          Ev.progress 0.3, Ev.exec "query_task", Ev.progress 0.5, Ev.exec "validation_task"]
          ++ (if ValidationSecurityAgent.invokesCompletionService env.task env.queryStr
              then [Ev.llmValidator] else []))
          ++ [Ev.progress 0.6, Ev.exec "execute_query"])
          ++ [Ev.statusSet "failed"],
        status := "failed" } := by
  obtain ⟨h1, h2, h3⟩ := queryPath_conds hq
  unfold run_crew_pipeline
  rw [if_neg (by simp [h1]), if_neg (by simp [h2]), if_neg (by simp [h3]),
    if_neg (by simp [h4]), if_neg (by simp [h5]), if_neg h6, if_neg (by simp [h7]),
    if_neg (by simp [h8]), if_pos h9]
  rfl

theorem rcp_eq_no_rows (env : PipelineEnv) (hq : onQueryPath env = true)
    (h4 : env.schemaSuccess = true) (h5 : env.schemaTables.isEmpty = false)
    (h6 : ¬((pyStrip env.queryStr).length < 5))
    (h7 : (parse_validation_output env.jsonDecode env.valRaw).valid = true)
    (h8 : (pyStrip env.queryStr == "") = false)
    (h9 : env.dbError.isSome = false)
    (h10 : (!dbTruthy env || env.dbRows.isNone) = true) :
    run_crew_pipeline env =
      { result := { success := false,
                    error := some "No data returned from database.",
                    text := none, visualization := none, query := some env.queryStr,
                    agentsCalled := ["chat_agent", "query_agent", "validation_agent"] },
        trace := ([Ev.statusSet "in_progress", Ev.progress 0.1,
          Ev.exec "intent_detection_task", Ev.progress 0.2, Ev.exec "fetch_schema",
          Ev.progress 0.3, Ev.exec "query_task", Ev.progress 0.5, Ev.exec "validation_task"]
          ++ (if ValidationSecurityAgent.invokesCompletionService env.task env.queryStr
              then [Ev.llmValidator] else []))
          ++ [Ev.progress 0.6, Ev.exec "execute_query"],
        status := "in_progress" } := by
  obtain ⟨h1, h2, h3⟩ := queryPath_conds hq
  unfold run_crew_pipeline
  rw [if_neg (by simp [h1]), if_neg (by simp [h2]), if_neg (by simp [h3]),
    if_neg (by simp [h4]), if_neg (by simp [h5]), if_neg h6, if_neg (by simp [h7]),
    if_neg (by simp [h8]), if_neg (by simp [h9]), if_pos h10]
  rfl

theorem rcp_eq_success_viz (env : PipelineEnv) (hq : onQueryPath env = true)
    (h4 : env.schemaSuccess = true) (h5 : env.schemaTables.isEmpty = false)
    (h6 : ¬((pyStrip env.queryStr).length < 5))
    (h7 : (parse_validation_output env.jsonDecode env.valRaw).valid = true)
    (h8 : (pyStrip env.queryStr == "") = false)
    (h9 : env.dbError.isSome = false)
    (h10 : (!dbTruthy env || env.dbRows.isNone) = false)
    (h11 : env.visualize = true) :
    run_crew_pipeline env =
      { result := { success := true, error := none,
                    text := some env.chatMessage,
                    visualization := env.vizOutput,
                    query := some env.queryStr,
                    agentsCalled := ["chat_agent", "query_agent", "validation_agent",
                      "visualization_agent", "chat_agent"] },
        trace := ((((((([Ev.statusSet "in_progress", Ev.progress 0.1,
          Ev.exec "intent_detection_task", Ev.progress 0.2, Ev.exec "fetch_schema",
          Ev.progress 0.3, Ev.exec "query_task", Ev.progress 0.5, Ev.exec "validation_task"]
          ++ (if ValidationSecurityAgent.invokesCompletionService env.task env.queryStr
              then [Ev.llmValidator] else []))
          ++ [Ev.progress 0.6, Ev.exec "execute_query"])
          ++ [Ev.progress 0.8])
          ++ [Ev.progress 0.9])
          ++ [Ev.exec "visualization_task"])
          ++ [Ev.exec "chat_task"])
          ++ [Ev.progress 1, Ev.statusSet "completed"]),
        status := "completed" } := by
  obtain ⟨h1, h2, h3⟩ := queryPath_conds hq
  unfold run_crew_pipeline
  rw [if_neg (by simp [h1]), if_neg (by simp [h2]), if_neg (by simp [h3]),
    if_neg (by simp [h4]), if_neg (by simp [h5]), if_neg h6, if_neg (by simp [h7]),
    if_neg (by simp [h8]), if_neg (by simp [h9]), if_neg (by simp [h10])]
  simp only [h11, if_true, eq_self_iff_true]
  rfl

theorem rcp_eq_success_no_viz (env : PipelineEnv) (hq : onQueryPath env = true)
    (h4 : env.schemaSuccess = true) (h5 : env.schemaTables.isEmpty = false)
    (h6 : ¬((pyStrip env.queryStr).length < 5))
    (h7 : (parse_validation_output env.jsonDecode env.valRaw).valid = true)
    (h8 : (pyStrip env.queryStr == "") = false)
    (h9 : env.dbError.isSome = false)
    (h10 : (!dbTruthy env || env.dbRows.isNone) = false)
    (h11 : env.visualize = false) :
    run_crew_pipeline env =
      { result := { success := true, error := none,
                    text := some env.chatMessage,
                    visualization := none,
                    query := some env.queryStr,
                    agentsCalled := ["chat_agent", "query_agent", "validation_agent",
                      "chat_agent"] },
        trace := (((((([Ev.statusSet "in_progress", Ev.progress 0.1,
          Ev.exec "intent_detection_task", Ev.progress 0.2, Ev.exec "fetch_schema",
          Ev.progress 0.3, Ev.exec "query_task", Ev.progress 0.5, Ev.exec "validation_task"]
          ++ (if ValidationSecurityAgent.invokesCompletionService env.task env.queryStr
              then [Ev.llmValidator] else []))
          ++ [Ev.progress 0.6, Ev.exec "execute_query"])
          ++ [Ev.progress 0.9])
          ++ [])
          ++ [Ev.exec "chat_task"])
          ++ [Ev.progress 1, Ev.statusSet "completed"]),
        status := "completed" } := by
  obtain ⟨h1, h2, h3⟩ := queryPath_conds hq
  unfold run_crew_pipeline
  rw [if_neg (by simp [h1]), if_neg (by simp [h2]), if_neg (by simp [h3]),
    if_neg (by simp [h4]), if_neg (by simp [h5]), if_neg h6, if_neg (by simp [h7]),
    if_neg (by simp [h8]), if_neg (by simp [h9]), if_neg (by simp [h10])]
  simp only [h11, if_false, Bool.false_eq_true]
  rfl

theorem executedAgents_append (xs ys : List Ev) :
    executedAgents (xs ++ ys) = executedAgents xs ++ executedAgents ys := by
  simp [executedAgents, List.filterMap_append]

theorem executedAgents_llm_cond (b : Bool) :
    executedAgents (if b = true then [Ev.llmValidator] else []) = [] := by
  cases b <;> rfl

theorem progressValues_append (xs ys : List Ev) :
    progressValues (xs ++ ys) = progressValues xs ++ progressValues ys := by
  simp [progressValues, List.filterMap_append]

theorem progressValues_llm_cond (b : Bool) :
    progressValues (if b = true then [Ev.llmValidator] else []) = [] := by
  cases b <;> rfl


/-- C3 (amended): every returned agents_called list starts with chat_agent,
and every entry other than schema_agent names a stage adapter that actually
executed during the run; but the lists are hardcoded per branch, so they do
not reflect the attempted stages exactly — the data-exploration branch lists
schema_agent although only the chat agent ran, and the branches entered
after a successful schema fetch omit the executed schema stage (and the
backend execution call is never listed). -/
theorem c3_agents_called_amended (env : PipelineEnv) :
    (run_crew_pipeline env).result.agentsCalled.head? = some "chat_agent"
    ∧ ∀ a ∈ (run_crew_pipeline env).result.agentsCalled,
        a = "schema_agent" ∨ a ∈ executedAgents (run_crew_pipeline env).trace := by
  cases hs : isSystemBranch env.intentType with
  | true => rw [rcp_eq_system env hs]; exact ⟨rfl, by dsimp only; decide⟩
  | false =>
  cases hc : isConversationBranch env.intentType with
  | true => rw [rcp_eq_conversation env hs hc]; exact ⟨rfl, by dsimp only; decide⟩
  | false =>
  cases he : isExplorationBranch env.intentType with
  | true => rw [rcp_eq_exploration env hs hc he]; exact ⟨rfl, by dsimp only; decide⟩
  | false =>
  have hq : onQueryPath env = true := by simp [onQueryPath, hs, hc, he]
  cases h4 : env.schemaSuccess with
  | false => rw [rcp_eq_schema_error env hq h4]; exact ⟨rfl, by dsimp only; decide⟩
  | true =>
  cases h5 : env.schemaTables.isEmpty with
  | true => rw [rcp_eq_no_tables env hq h4 h5]; exact ⟨rfl, by dsimp only; decide⟩
  | false =>
  by_cases h6 : (pyStrip env.queryStr).length < 5
  · rw [rcp_eq_short_query env hq h4 h5 h6]; exact ⟨rfl, by dsimp only; decide⟩
  · cases h7 : (parse_validation_output env.jsonDecode env.valRaw).valid with
    | false =>
      rw [rcp_eq_invalid_verdict env hq h4 h5 h6 h7]
      refine ⟨rfl, ?_⟩
      dsimp only
      simp only [executedAgents_append, executedAgents_llm_cond, List.append_nil,
        List.nil_append]
      decide
    | true =>
    have h8 : (pyStrip env.queryStr == "") = false := (queryStr_nonempty h6).2
    cases h9 : env.dbError.isSome with
    | true =>
      rw [rcp_eq_db_error env hq h4 h5 h6 h7 h8 h9]
      refine ⟨rfl, ?_⟩
      dsimp only
      simp only [executedAgents_append, executedAgents_llm_cond, List.append_nil,
        List.nil_append]
      decide
    | false =>
    cases h10 : (!dbTruthy env || env.dbRows.isNone) with
    | true =>
      rw [rcp_eq_no_rows env hq h4 h5 h6 h7 h8 h9 h10]
      refine ⟨rfl, ?_⟩
      dsimp only
      simp only [executedAgents_append, executedAgents_llm_cond, List.append_nil,
        List.nil_append]
      decide
    | false =>
    cases h11 : env.visualize with
    | true =>
      rw [rcp_eq_success_viz env hq h4 h5 h6 h7 h8 h9 h10 h11]
      refine ⟨rfl, ?_⟩
      dsimp only
      simp only [executedAgents_append, executedAgents_llm_cond, List.append_nil,
        List.nil_append]
      decide
    | false =>
      rw [rcp_eq_success_no_viz env hq h4 h5 h6 h7 h8 h9 h10 h11]
      refine ⟨rfl, ?_⟩
      dsimp only
      simp only [executedAgents_append, executedAgents_llm_cond, List.append_nil,
        List.nil_append]
      decide

/-- Witness for C3 at a concrete run and entry. -/
theorem c3_agents_called_amended_witness :
    "validation_agent" ∈ (run_crew_pipeline envValidationFails).result.agentsCalled
    ∧ ("validation_agent" = "schema_agent"
        ∨ "validation_agent" ∈ executedAgents (run_crew_pipeline envValidationFails).trace) :=
  ⟨by decide, (c3_agents_called_amended envValidationFails).2 "validation_agent" (by decide)⟩

/-- C3 counterexample: a run that fails at validation executed the schema
fetch, yet the returned agents_called of the failed run omits schema_agent,
so the list does not reflect exactly the stages attempted. -/
theorem c3_agents_called_counterexample :
    (run_crew_pipeline envValidationFails).result.success = false
    ∧ Ev.exec "fetch_schema" ∈ (run_crew_pipeline envValidationFails).trace
    ∧ agentOfTask "fetch_schema" = "schema_agent"
    ∧ "schema_agent" ∉ (run_crew_pipeline envValidationFails).result.agentsCalled := by decide

theorem progressValues_nil : progressValues [] = [] := rfl

theorem progressValues_cons_progress (p : Rat) (tl : List Ev) :
    progressValues (Ev.progress p :: tl) = p :: progressValues tl := rfl

theorem progressValues_cons_exec (s : String) (tl : List Ev) :
    progressValues (Ev.exec s :: tl) = progressValues tl := rfl

theorem progressValues_cons_status (s : String) (tl : List Ev) :
    progressValues (Ev.statusSet s :: tl) = progressValues tl := rfl

theorem progressValues_cons_llm (tl : List Ev) :
    progressValues (Ev.llmValidator :: tl) = progressValues tl := rfl

/-- C7: within a single pipeline run the sequence of progress updates is
non-decreasing, every published progress value lies in [0,1], and 1.0 is
published only in runs whose final status is completed. -/
theorem c7_progress_invariant (env : PipelineEnv) :
    List.Pairwise (fun a b => a ≤ b) (progressValues (run_crew_pipeline env).trace)
    ∧ (∀ p ∈ progressValues (run_crew_pipeline env).trace, 0 ≤ p ∧ p ≤ 1)
    ∧ ((1 : Rat) ∈ progressValues (run_crew_pipeline env).trace →
        (run_crew_pipeline env).status = "completed") := by
  have pvsimp := progressValues_nil
  cases hs : isSystemBranch env.intentType with
  | true =>
    rw [rcp_eq_system env hs]
    dsimp only
    simp only [progressValues_cons_progress, progressValues_cons_exec,
      progressValues_cons_status, progressValues_cons_llm, progressValues_nil,
      progressValues_append, progressValues_llm_cond]
    exact ⟨by norm_num [List.pairwise_cons],
      fun p hp => by fin_cases hp <;> norm_num, fun _ => trivial⟩
  | false =>
  cases hc : isConversationBranch env.intentType with
  | true =>
    rw [rcp_eq_conversation env hs hc]
    dsimp only
    simp only [progressValues_cons_progress, progressValues_cons_exec,
      progressValues_cons_status, progressValues_cons_llm, progressValues_nil,
      progressValues_append, progressValues_llm_cond]
    exact ⟨by norm_num [List.pairwise_cons],
      fun p hp => by fin_cases hp <;> norm_num, fun _ => trivial⟩
  | false =>
  cases he : isExplorationBranch env.intentType with
  | true =>
    rw [rcp_eq_exploration env hs hc he]
    dsimp only
    simp only [progressValues_cons_progress, progressValues_cons_exec,
      progressValues_cons_status, progressValues_cons_llm, progressValues_nil,
      progressValues_append, progressValues_llm_cond]
    exact ⟨by norm_num [List.pairwise_cons],
      fun p hp => by fin_cases hp <;> norm_num, fun _ => trivial⟩
  | false =>
  have hq : onQueryPath env = true := by simp [onQueryPath, hs, hc, he]
  cases h4 : env.schemaSuccess with
  | false =>
    rw [rcp_eq_schema_error env hq h4]
    dsimp only
    simp only [progressValues_cons_progress, progressValues_cons_exec,
      progressValues_cons_status, progressValues_cons_llm, progressValues_nil,
      progressValues_append, progressValues_llm_cond]
    refine ⟨by norm_num [List.pairwise_cons],
      fun p hp => by fin_cases hp <;> norm_num, fun h => ?_⟩
    exfalso
    simp only [List.mem_cons, List.not_mem_nil, or_false] at h
    norm_num at h
  | true =>
  cases h5 : env.schemaTables.isEmpty with
  | true =>
    rw [rcp_eq_no_tables env hq h4 h5]
    dsimp only
    simp only [progressValues_cons_progress, progressValues_cons_exec,
      progressValues_cons_status, progressValues_cons_llm, progressValues_nil,
      progressValues_append, progressValues_llm_cond]
    refine ⟨by norm_num [List.pairwise_cons],
      fun p hp => by fin_cases hp <;> norm_num, fun h => ?_⟩
    exfalso
    simp only [List.mem_cons, List.not_mem_nil, or_false] at h
    norm_num at h
  | false =>
  by_cases h6 : (pyStrip env.queryStr).length < 5
  · rw [rcp_eq_short_query env hq h4 h5 h6]
    dsimp only
    simp only [progressValues_cons_progress, progressValues_cons_exec,
      progressValues_cons_status, progressValues_cons_llm, progressValues_nil,
      progressValues_append, progressValues_llm_cond]
    refine ⟨by norm_num [List.pairwise_cons],
      fun p hp => by fin_cases hp <;> norm_num, fun h => ?_⟩
    exfalso
    simp only [List.mem_cons, List.not_mem_nil, or_false] at h
    norm_num at h
  · cases h7 : (parse_validation_output env.jsonDecode env.valRaw).valid with
    | false =>
      rw [rcp_eq_invalid_verdict env hq h4 h5 h6 h7]
      dsimp only
      simp only [progressValues_cons_progress, progressValues_cons_exec,
        progressValues_cons_status, progressValues_cons_llm, progressValues_nil,
        progressValues_append, progressValues_llm_cond, List.append_nil, List.nil_append]
      refine ⟨by norm_num [List.pairwise_cons],
        fun p hp => by fin_cases hp <;> norm_num, fun h => ?_⟩
      exfalso
      simp only [List.mem_cons, List.not_mem_nil, or_false] at h
      norm_num at h
    | true =>
    have h8 : (pyStrip env.queryStr == "") = false := (queryStr_nonempty h6).2
    cases h9 : env.dbError.isSome with
    | true =>
      rw [rcp_eq_db_error env hq h4 h5 h6 h7 h8 h9]
      dsimp only
      simp only [progressValues_cons_progress, progressValues_cons_exec,
        progressValues_cons_status, progressValues_cons_llm, progressValues_nil,
        progressValues_append, progressValues_llm_cond, List.append_nil, List.nil_append]
      refine ⟨by norm_num [List.pairwise_cons],
        fun p hp => by fin_cases hp <;> norm_num, fun h => ?_⟩
      exfalso
      simp only [List.mem_cons, List.not_mem_nil, or_false] at h
      norm_num at h
    | false =>
    cases h10 : (!dbTruthy env || env.dbRows.isNone) with
    | true =>
      rw [rcp_eq_no_rows env hq h4 h5 h6 h7 h8 h9 h10]
      dsimp only
      simp only [progressValues_cons_progress, progressValues_cons_exec,
        progressValues_cons_status, progressValues_cons_llm, progressValues_nil,
        progressValues_append, progressValues_llm_cond, List.append_nil, List.nil_append]
      refine ⟨by norm_num [List.pairwise_cons],
        fun p hp => by fin_cases hp <;> norm_num, fun h => ?_⟩
      exfalso
      simp only [List.mem_cons, List.not_mem_nil, or_false] at h
      norm_num at h
    | false =>
    cases h11 : env.visualize with
    | true =>
      rw [rcp_eq_success_viz env hq h4 h5 h6 h7 h8 h9 h10 h11]
      dsimp only
      simp only [progressValues_cons_progress, progressValues_cons_exec,
        progressValues_cons_status, progressValues_cons_llm, progressValues_nil,
        progressValues_append, progressValues_llm_cond, List.append_nil, List.nil_append]
      exact ⟨by norm_num [List.pairwise_cons],
        fun p hp => by fin_cases hp <;> norm_num, fun _ => trivial⟩
    | false =>
      rw [rcp_eq_success_no_viz env hq h4 h5 h6 h7 h8 h9 h10 h11]
      dsimp only
      simp only [progressValues_cons_progress, progressValues_cons_exec,
        progressValues_cons_status, progressValues_cons_llm, progressValues_nil,
        progressValues_append, progressValues_llm_cond, List.append_nil, List.nil_append]
      exact ⟨by norm_num [List.pairwise_cons],
        fun p hp => by fin_cases hp <;> norm_num, fun _ => trivial⟩

/-- Helper: an exec event never lies in the conditional llmValidator
segment of a trace. -/
theorem exec_mem_llm_cond (s : String) (b : Bool) :
    (Ev.exec s ∈ (if b = true then [Ev.llmValidator] else [])) ↔ False := by
  cases b <;> simp

/-- C4 (amended): for a run that reaches the execution stage, an execution
error, or a response without a rows key, each terminate the run as failed
without invoking the visualization or explanation stages; a present but
empty rows list, however, is not treated as an empty result set — the run
continues into those stages (see the counterexample). -/
theorem c4_execution_failure_amended (env : PipelineEnv)
    (hreach : reachesExecution env = true) :
    (env.dbError.isSome = true →
      (run_crew_pipeline env).result.success = false
      ∧ Ev.exec "visualization_task" ∉ (run_crew_pipeline env).trace
      ∧ Ev.exec "chat_task" ∉ (run_crew_pipeline env).trace)
    ∧ (env.dbError = none → env.dbRows = none →
      (run_crew_pipeline env).result.success = false
      ∧ Ev.exec "visualization_task" ∉ (run_crew_pipeline env).trace
      ∧ Ev.exec "chat_task" ∉ (run_crew_pipeline env).trace) := by
  obtain ⟨hv, h7, h8⟩ := reachesExecution_parts hreach
  obtain ⟨hqp, h4, h5, h6⟩ := reachesValidation_parts hv
  constructor
  · intro h9
    rw [rcp_eq_db_error env hqp h4 h5 h6 h7 h8 h9]
    refine ⟨rfl, ?_, ?_⟩
    · dsimp only
      simp only [List.mem_append, exec_mem_llm_cond, or_false, false_or]
      decide
    · dsimp only
      simp only [List.mem_append, exec_mem_llm_cond, or_false, false_or]
      decide
  · intro hdb hrows
    have h9 : env.dbError.isSome = false := by simp [hdb]
    have h10 : (!dbTruthy env || env.dbRows.isNone) = true := by simp [hrows]
    rw [rcp_eq_no_rows env hqp h4 h5 h6 h7 h8 h9 h10]
    refine ⟨rfl, ?_, ?_⟩
    · dsimp only
      simp only [List.mem_append, exec_mem_llm_cond, or_false, false_or]
      decide
    · dsimp only
      simp only [List.mem_append, exec_mem_llm_cond, or_false, false_or]
      decide

/-- Witness for C4 at a concrete run with an execution error. -/
theorem c4_execution_failure_amended_witness :
    reachesExecution envDbError = true
    ∧ envDbError.dbError.isSome = true
    ∧ ((run_crew_pipeline envDbError).result.success = false
      ∧ Ev.exec "visualization_task" ∉ (run_crew_pipeline envDbError).trace
      ∧ Ev.exec "chat_task" ∉ (run_crew_pipeline envDbError).trace) :=
  ⟨by decide, by decide,
    (c4_execution_failure_amended envDbError (by decide)).1 (by decide)⟩

/-- C4 counterexample: a present but empty rows list does not terminate the
run — it succeeds and both visualization and explanation stages execute,
contradicting "empty result set ⇒ Failed". -/
theorem c4_empty_rows_counterexample :
    envEmptyRows.dbRows = some []
    ∧ (run_crew_pipeline envEmptyRows).result.success = true
    ∧ Ev.exec "visualization_task" ∈ (run_crew_pipeline envEmptyRows).trace
    ∧ Ev.exec "chat_task" ∈ (run_crew_pipeline envEmptyRows).trace := by decide

/-- C8 (amended): in a query-intent run where a valid query executes, rows
come back, visualize is true, the visualization stage returns a non-empty
output and the explanation stage returns a non-empty message, the run
succeeds, both fan-out stages execute, and the final output carries the
text, the query (non-empty by the generation gate) and the visualization;
the returned agents_called is the hardcoded list chat, query, validation,
visualization, chat — it does not include a schema entry. -/
theorem c8_success_scenario_amended (env : PipelineEnv) (viz : VizOut) (rows : List String)
    (hreach : reachesExecution env = true) (hdb : env.dbError = none)
    (hrows : env.dbRows = some rows) (hviz : env.visualize = true)
    (hvo : env.vizOutput = some viz) (hmsg : env.chatMessage ≠ "") :
    (run_crew_pipeline env).result.success = true
    ∧ (run_crew_pipeline env).result.text = some env.chatMessage
    ∧ env.chatMessage ≠ ""
    ∧ (run_crew_pipeline env).result.query = some env.queryStr
    ∧ env.queryStr ≠ ""
    ∧ (run_crew_pipeline env).result.visualization = some viz
    ∧ Ev.exec "visualization_task" ∈ (run_crew_pipeline env).trace
    ∧ Ev.exec "chat_task" ∈ (run_crew_pipeline env).trace
    ∧ (run_crew_pipeline env).result.agentsCalled
        = ["chat_agent", "query_agent", "validation_agent", "visualization_agent",
           "chat_agent"]
    ∧ "schema_agent" ∉ (run_crew_pipeline env).result.agentsCalled := by
  obtain ⟨hv, h7, h8⟩ := reachesExecution_parts hreach
  obtain ⟨hqp, h4, h5, h6⟩ := reachesValidation_parts hv
  have h9 : env.dbError.isSome = false := by simp [hdb]
  have h10 : (!dbTruthy env || env.dbRows.isNone) = false := by
    simp [dbTruthy, hrows]
  rw [rcp_eq_success_viz env hqp h4 h5 h6 h7 h8 h9 h10 hviz]
  have hqne : env.queryStr ≠ "" := by
    intro he
    apply h6
    rw [he]
    decide
  refine ⟨rfl, rfl, hmsg, rfl, hqne, ?_, ?_, ?_, rfl, by dsimp only; decide⟩
  · dsimp only
    exact hvo
  · dsimp only
    simp only [List.mem_append, exec_mem_llm_cond, or_false, false_or]
    decide
  · dsimp only
    simp only [List.mem_append, exec_mem_llm_cond, or_false, false_or]
    decide

/-- Witness for C8 at the concrete successful run. -/
theorem c8_success_scenario_amended_witness :
    (run_crew_pipeline envBase).result.success = true
    ∧ Ev.exec "visualization_task" ∈ (run_crew_pipeline envBase).trace
    ∧ Ev.exec "chat_task" ∈ (run_crew_pipeline envBase).trace
    ∧ "schema_agent" ∉ (run_crew_pipeline envBase).result.agentsCalled :=
  ⟨(c8_success_scenario_amended envBase ⟨some "chart code", "bar chart"⟩ ["row1", "row2"]
      (by decide) rfl rfl rfl rfl (by decide)).1,
   (c8_success_scenario_amended envBase ⟨some "chart code", "bar chart"⟩ ["row1", "row2"]
      (by decide) rfl rfl rfl rfl (by decide)).2.2.2.2.2.2.1,
   (c8_success_scenario_amended envBase ⟨some "chart code", "bar chart"⟩ ["row1", "row2"]
      (by decide) rfl rfl rfl rfl (by decide)).2.2.2.2.2.2.2.1,
   (c8_success_scenario_amended envBase ⟨some "chart code", "bar chart"⟩ ["row1", "row2"]
      (by decide) rfl rfl rfl rfl (by decide)).2.2.2.2.2.2.2.2.2⟩

/-- C8 counterexample: in the successful visualize run the returned
agents_called contains no schema entry, so the claimed list
schema, query, validation, visualization, chat does not hold. -/
theorem c8_missing_schema_counterexample :
    (run_crew_pipeline envBase).result.success = true
    ∧ envBase.visualize = true
    ∧ envBase.dbRows = some ["row1", "row2"]
    ∧ (run_crew_pipeline envBase).result.visualization.isSome = true
    ∧ "schema_agent" ∉ (run_crew_pipeline envBase).result.agentsCalled := by decide

/-- Helper: one pattern-loop step keeps the confidence inside the finite set
of values the rule matcher can produce. -/
theorem rule_step_confidence_mem (task_lower : String) (search multi : String → String → Bool)
    (best : IntentResult) (intent_type : IntentType) (pattern : String)
    (hb : best.confidence ∈ [Rat.divInt 3 10, Rat.divInt 5 10, Rat.divInt 7 10,
      Rat.divInt 7 10 + Rat.divInt 1 10, Rat.divInt 9 10]) :
    (rule_step task_lower search multi best intent_type pattern).confidence
      ∈ [Rat.divInt 3 10, Rat.divInt 5 10, Rat.divInt 7 10,
         Rat.divInt 7 10 + Rat.divInt 1 10, Rat.divInt 9 10] := by
  unfold rule_step
  by_cases hs : search pattern task_lower = true
  · rw [if_pos hs]
    by_cases hlt : best.confidence < patternConfidence task_lower multi intent_type pattern
    · rw [if_pos hlt]
      show patternConfidence task_lower multi intent_type pattern ∈ _
      unfold patternConfidence
      repeat' split
      all_goals simp [List.mem_cons]
    · rw [if_neg hlt]
      exact hb
  · rw [if_neg hs]
    exact hb

/-- Helper: the inner pattern fold keeps the confidence in the value set. -/
theorem foldl_patterns_confidence_mem (task_lower : String)
    (search multi : String → String → Bool) (intent_type : IntentType) :
    ∀ (patterns : List String) (best : IntentResult),
      best.confidence ∈ [Rat.divInt 3 10, Rat.divInt 5 10, Rat.divInt 7 10,
        Rat.divInt 7 10 + Rat.divInt 1 10, Rat.divInt 9 10] →
      (patterns.foldl (fun b pattern => rule_step task_lower search multi b intent_type pattern)
          best).confidence
        ∈ [Rat.divInt 3 10, Rat.divInt 5 10, Rat.divInt 7 10,
           Rat.divInt 7 10 + Rat.divInt 1 10, Rat.divInt 9 10] := by
  intro patterns
  induction patterns with
  | nil => intro best hb; exact hb
  | cons p ps ih =>
    intro best hb
    exact ih _ (rule_step_confidence_mem task_lower search multi best intent_type p hb)

/-- Helper: the whole rule matcher produces a confidence in the value set
0.3, 0.5, 0.7, 0.8, 0.9. -/
theorem apply_rules_confidence_mem (search multi : String → String → Bool) (task : String) :
    (apply_rules search multi task).confidence
      ∈ [Rat.divInt 3 10, Rat.divInt 5 10, Rat.divInt 7 10,
         Rat.divInt 7 10 + Rat.divInt 1 10, Rat.divInt 9 10] := by
  unfold apply_rules
  generalize pyStrip (strToLower task) = task_lower
  have outer : ∀ (pairs : List (IntentType × List String)) (best : IntentResult),
      best.confidence ∈ [Rat.divInt 3 10, Rat.divInt 5 10, Rat.divInt 7 10,
        Rat.divInt 7 10 + Rat.divInt 1 10, Rat.divInt 9 10] →
      (pairs.foldl (fun best pair => pair.2.foldl
          (fun b pattern => rule_step task_lower search multi b pair.1 pattern) best)
          best).confidence
        ∈ [Rat.divInt 3 10, Rat.divInt 5 10, Rat.divInt 7 10,
           Rat.divInt 7 10 + Rat.divInt 1 10, Rat.divInt 9 10] := by
    intro pairs
    induction pairs with
    | nil => intro best hb; exact hb
    | cons pr prs ih =>
      intro best hb
      exact ih _ (foldl_patterns_confidence_mem task_lower search multi pr.1 pr.2 best hb)
  apply outer
  simp [List.mem_cons]

/-- C6: whenever the deterministic rule matcher yields confidence at least
0.85 — which over its reachable value set means exactly 0.9 — the
classifier returns the rule result at once and the LLM escalation path is
not invoked. -/
theorem c6_rule_short_circuit (search multi : String → String → Bool)
    (llm_result : IntentResult) (task : String)
    (h : (0.85 : Rat) ≤ (apply_rules search multi task).confidence) :
    classify_intent search multi llm_result task
      = (apply_rules search multi task, false) := by
  have hset := apply_rules_confidence_mem search multi task
  have hgt : Rat.divInt 85 100 < (apply_rules search multi task).confidence := by
    have h85 : (0.85 : Rat) = Rat.divInt 85 100 := by
      norm_num [Rat.divInt]
    rw [h85] at h
    simp only [List.mem_cons, List.not_mem_nil, or_false] at hset
    rcases hset with h1 | h1 | h1 | h1 | h1 <;> rw [h1] at h ⊢ <;>
      norm_num [Rat.divInt] at h ⊢
  unfold classify_intent
  rw [if_pos hgt]

/-- Witness for C6: the greeting "hi" matches a conversation pattern with
confidence 0.9, and the classifier returns the rule result without the LLM. -/
theorem c6_rule_short_circuit_witness :
    (0.85 : Rat) ≤ (apply_rules searchOnlyHi multiNever "hi").confidence
    ∧ classify_intent searchOnlyHi multiNever llmQueryResult "hi"
        = (apply_rules searchOnlyHi multiNever "hi", false) := by
  have heval : apply_rules searchOnlyHi multiNever "hi"
      = { intent_type := "CONVERSATION", confidence := Rat.divInt 9 10,
          reasoning := "Matched pattern: ^hi$" } := by rfl
  have hle : (0.85 : Rat) ≤ (apply_rules searchOnlyHi multiNever "hi").confidence := by
    rw [heval]
    norm_num [Rat.divInt]
  exact ⟨hle, c6_rule_short_circuit searchOnlyHi multiNever llmQueryResult "hi" hle⟩

/-- Helper: when every attempt raises, the retry loop walks all remaining
attempts and re-raises the last error. -/
theorem retry_loop_all_fail (call_api : Nat → Except AIServiceError ApiResponse)
    (retries : Nat) (e : Nat → AIServiceError)
    (hcall : ∀ a, call_api a = Except.error (e a)) :
    ∀ (n a made : Nat), 1 ≤ n → a + n = retries + 1 →
      retry_loop call_api retries (List.range' a n) made
        = (ApiOutcome.raised (e retries), made + n) := by
  intro n
  induction n with
  | zero => intro a made h1 _; exact absurd h1 (by omega)
  | succ k ih =>
    intro a made _ h2
    rw [show List.range' a (k + 1) = a :: List.range' (a + 1) k from rfl]
    simp only [retry_loop, hcall a]
    by_cases hk : k = 0
    · subst hk
      have ha : a = retries := by omega
      subst ha
      simp
    · have ha : (a == retries) = false := beq_eq_false_iff_ne.mpr (by omega)
      simp only [ha, Bool.false_eq_true, if_false]
      rw [ih (a + 1) (made + 1) (by omega) (by omega)]
      congr 1
      omega

/-- C5 (amended): the retrying client does not distinguish failure classes:
every failure, non-transient HTTP 4xx included, is retried until the
configured attempt count is exhausted, and on exhaustion the wrapped
AI-service error is raised to the caller rather than returned as a value. -/
theorem c5_retry_amended (raw : Nat → Except ApiFailure ApiResponse)
    (fail : Nat → ApiFailure) (retries timeout : Nat)
    (h1 : 1 ≤ retries) (h2 : ∀ a, raw a = Except.error (fail a)) :
    call_anthropic_api raw retries timeout
      = (ApiOutcome.raised (create_ai_service_error_for timeout (fail retries)), retries) := by
  unfold call_anthropic_api
  rw [retry_loop_all_fail
    (fun attempt => (raw attempt).mapError (create_ai_service_error_for timeout))
    retries (fun a => create_ai_service_error_for timeout (fail a))
    (fun a => by
      show Except.mapError (create_ai_service_error_for timeout) (raw a)
        = Except.error (create_ai_service_error_for timeout (fail a))
      rw [h2 a]
      rfl)
    retries 1 0 h1 (by omega)]
  rw [Nat.zero_add]

/-- Witness for C5 with a permanently failing HTTP 400 behavior and three
configured attempts. -/
theorem c5_retry_amended_witness :
    1 ≤ 3
    ∧ call_anthropic_api rawAlways400 3 30
        = (ApiOutcome.raised ⟨"HTTP error 400: invalid request", "HIGH"⟩, 3) :=
  ⟨by decide,
   c5_retry_amended rawAlways400 (fun _ => ApiFailure.httpError 400 "invalid request")
     3 30 (by decide) (fun _ => rfl)⟩

/-- C5 counterexample: a non-transient HTTP 400 failure is attempted three
times, not propagated after the first attempt, and the exhausted loop raises
the wrapped error instead of returning a structured error value. -/
theorem c5_nontransient_retried_counterexample :
    call_anthropic_api rawAlways400 3 30
      = (ApiOutcome.raised ⟨"HTTP error 400: invalid request", "HIGH"⟩, 3)
    ∧ (call_anthropic_api rawAlways400 3 30).2 ≠ 1 := by decide

/-- Helper: looking up the key just written through setAssoc finds the new
value (replacement branch). -/
theorem lookup_map_replace {β : Type} (l : List (String × β)) (k : String) (v : β) :
    (l.map (fun kv => if kv.1 == k then (k, v) else kv)).lookup k
      = if l.any (fun kv => kv.1 == k) then some v else none := by
  induction l with
  | nil => rfl
  | cons kv rest ih =>
    simp only [List.map_cons, List.any_cons]
    by_cases hc : (kv.1 == k) = true
    · rw [if_pos hc]
      simp [List.lookup, hc]
    · rw [if_neg hc]
      have hcf : (kv.1 == k) = false := by rwa [Bool.not_eq_true] at hc
      have hck : (k == kv.1) = false := by
        rw [beq_eq_false_iff_ne] at hcf ⊢
        exact fun h => hcf h.symm
      simp only [List.lookup, hck, hcf, Bool.false_or]
      exact ih

/-- Helper: looking up a key appended at the end when it was absent. -/
theorem lookup_append_new {β : Type} (l : List (String × β)) (k : String) (v : β)
    (habs : l.any (fun kv => kv.1 == k) = false) :
    (l ++ [(k, v)]).lookup k = some v := by
  induction l with
  | nil => simp [List.lookup]
  | cons kv rest ih =>
    simp only [List.any_cons, Bool.or_eq_false_iff] at habs
    have hck : (k == kv.1) = false := by
      rw [beq_eq_false_iff_ne]
      have hne := beq_eq_false_iff_ne.mp habs.1
      exact fun h => hne h.symm
    simp [List.lookup, hck, ih habs.2]

/-- Helper: lookup after setAssoc always finds the written value. -/
theorem lookup_setAssoc {β : Type} (l : List (String × β)) (k : String) (v : β) :
    (setAssoc l k v).lookup k = some v := by
  unfold setAssoc
  by_cases h : l.any (fun kv => kv.1 == k) = true
  · rw [if_pos h, lookup_map_replace, if_pos h]
  · rw [if_neg h]
    exact lookup_append_new l k v (by rwa [Bool.not_eq_true] at h)

/-- Helper: on the memory branch, set_context succeeds and a later get
returns the stored value exactly while strictly inside the expiry window
now + expiry_time. -/
theorem set_then_get_memory (st0 : CMState) (h0 : st0.useRedis = false)
    (t0 t : Rat) (uid : String) (c : Ctx) :
    (ContextManager.set_context st0 false t0 uid c none).1 = true
    ∧ (ContextManager.get_context
        (ContextManager.set_context st0 false t0 uid c none).2 false t uid).1
      = if t < t0 + (st0.expiryTime : Rat) then some c else none := by
  have hset : ContextManager.set_context st0 false t0 uid c none
      = (true, { st0 with
          memCache := setAssoc st0.memCache (contextKey uid)
            (MemEntry.mk c t0 (t0 + (st0.expiryTime : Rat))) }) := by
    unfold ContextManager.set_context
    rw [if_neg (by simp [h0])]
    rfl
  refine ⟨by rw [hset], ?_⟩
  rw [hset]
  unfold ContextManager.get_context
  rw [if_neg (by simp [h0])]
  simp only [lookup_setAssoc]
  by_cases ht : t < t0 + (st0.expiryTime : Rat)
  · rw [if_pos ht, if_pos ht]
  · rw [if_neg ht, if_neg ht]

/-- Helper: get_context does not change the backend choice or the configured
expiry time. -/
theorem get_context_preserves (st0 : CMState) (redisUp : Bool) (t : Rat) (uid : String) :
    ((ContextManager.get_context st0 redisUp t uid).2).useRedis = st0.useRedis
    ∧ ((ContextManager.get_context st0 redisUp t uid).2).expiryTime = st0.expiryTime := by
  unfold ContextManager.get_context
  by_cases hu : st0.useRedis = true
  · rw [if_pos hu]
    by_cases hr : redisUp = true
    · rw [if_pos hr]
      exact ⟨by trivial, by trivial⟩
    · rw [if_neg hr]
      exact ⟨by trivial, by trivial⟩
  · rw [if_neg hu]
    cases hl : List.lookup (contextKey uid) st0.memCache with
    | none =>
      simp only [hl]
      exact ⟨by trivial, by trivial⟩
    | some e =>
      simp only [hl]
      by_cases ht : t < e.expiry
      · rw [if_pos ht]
        exact ⟨by trivial, by trivial⟩
      · rw [if_neg ht]
        exact ⟨by trivial, by trivial⟩

/-- C9 (amended): on the in-memory cache branch, a context value written at
time t0 is readable strictly before t0 + T and unreadable from t0 + T on;
every set_context and append_to_context restores the full window T from the
time of the write; but the default T is 300 seconds — the value of the
REDIS_CONTEXT_EXPIRE_SECONDS setting — not 600, which applies only when
that setting is zero. -/
theorem c9_ttl_amended (st : CMState) (hmem : st.useRedis = false) (now : Rat)
    (uid : String) (ctx : Ctx) :
    (ContextManager.set_context st false now uid ctx none).1 = true
    ∧ (∀ t : Rat, t < now + (st.expiryTime : Rat) →
        (ContextManager.get_context
          (ContextManager.set_context st false now uid ctx none).2 false t uid).1
          = some ctx)
    ∧ (∀ t : Rat, now + (st.expiryTime : Rat) ≤ t →
        (ContextManager.get_context
          (ContextManager.set_context st false now uid ctx none).2 false t uid).1
          = none)
    ∧ (∀ (upd : Ctx) (t1 t2 : Rat),
        (ContextManager.append_to_context
            (ContextManager.set_context st false now uid ctx none).2
            false t1 uid upd none).1 = true
        ∧ (t2 < t1 + (st.expiryTime : Rat) →
            ((ContextManager.get_context
                (ContextManager.append_to_context
                  (ContextManager.set_context st false now uid ctx none).2
                  false t1 uid upd none).2
                false t2 uid).1).isSome = true)
        ∧ (t1 + (st.expiryTime : Rat) ≤ t2 →
            (ContextManager.get_context
                (ContextManager.append_to_context
                  (ContextManager.set_context st false now uid ctx none).2
                  false t1 uid upd none).2
                false t2 uid).1 = none))
    ∧ effective_expiry_time none none = 300 := by
  refine ⟨(set_then_get_memory st hmem now now uid ctx).1, ?_, ?_, ?_, rfl⟩
  · intro t ht
    rw [(set_then_get_memory st hmem now t uid ctx).2, if_pos ht]
  · intro t ht
    rw [(set_then_get_memory st hmem now t uid ctx).2, if_neg (not_lt.mpr ht)]
  · intro upd t1 t2
    have hst2u : ((ContextManager.set_context st false now uid ctx none).2).useRedis
        = false := by
      unfold ContextManager.set_context
      rw [if_neg (by simp [hmem])]
      exact hmem
    have hst2e : ((ContextManager.set_context st false now uid ctx none).2).expiryTime
        = st.expiryTime := by
      unfold ContextManager.set_context
      rw [if_neg (by simp [hmem])]
    have happ : ContextManager.append_to_context
        (ContextManager.set_context st false now uid ctx none).2 false t1 uid upd none
        = ContextManager.set_context
            (ContextManager.get_context
              (ContextManager.set_context st false now uid ctx none).2 false t1 uid).2
            false t1 uid
            (dictUpdate
              (((ContextManager.get_context
                (ContextManager.set_context st false now uid ctx none).2 false t1 uid).1).getD [])
              upd) none := rfl
    obtain ⟨hpu, hpe⟩ := get_context_preserves
      (ContextManager.set_context st false now uid ctx none).2 false t1 uid
    have hru : ((ContextManager.get_context
        (ContextManager.set_context st false now uid ctx none).2 false t1 uid).2).useRedis
        = false := by rw [hpu, hst2u]
    have hre : ((ContextManager.get_context
        (ContextManager.set_context st false now uid ctx none).2 false t1 uid).2).expiryTime
        = st.expiryTime := by rw [hpe, hst2e]
    have hfun := fun t => set_then_get_memory
      (ContextManager.get_context
        (ContextManager.set_context st false now uid ctx none).2 false t1 uid).2
      hru t1 t uid
      (dictUpdate
        (((ContextManager.get_context
          (ContextManager.set_context st false now uid ctx none).2 false t1 uid).1).getD [])
        upd)
    refine ⟨by rw [happ]; exact (hfun t1).1, ?_, ?_⟩
    · intro ht
      rw [happ, (hfun t2).2, hre, if_pos ht]
      rfl
    · intro ht
      rw [happ, (hfun t2).2, hre, if_neg (not_lt.mpr ht)]

/-- Witness for C9 at a concrete memory-backed instance: a value written at
time 0 with the default 300-second window is readable at time 100 and gone
at time 301. -/
theorem c9_ttl_amended_witness :
    cmMemoryInstance.useRedis = false
    ∧ (ContextManager.get_context
        (ContextManager.set_context cmMemoryInstance false 0 "u1" [("task", "hello")] none).2
        false 100 "u1").1 = some [("task", "hello")]
    ∧ (ContextManager.get_context
        (ContextManager.set_context cmMemoryInstance false 0 "u1" [("task", "hello")] none).2
        false 301 "u1").1 = none :=
  ⟨rfl,
   (c9_ttl_amended cmMemoryInstance rfl 0 "u1" [("task", "hello")]).2.1 100
     (by norm_num [cmMemoryInstance]),
   (c9_ttl_amended cmMemoryInstance rfl 0 "u1" [("task", "hello")]).2.2.1 301
     (by norm_num [cmMemoryInstance])⟩

/-- C9 counterexample: the default time-to-live fixed at initialization is
300 seconds (the REDIS_CONTEXT_EXPIRE_SECONDS default), not the 600 seconds
the claim states. -/
theorem c9_default_ttl_counterexample :
    effective_expiry_time none none = 300 ∧ effective_expiry_time none none ≠ 600 := by
  decide

/-- C10: the backend decision is made once — constructing the singleton
again returns the existing instance unchanged — and on an instance that
chose Redis, a later unreachable Redis makes get_context return None and
set_context and append_to_context return False, each without touching the
in-memory map (the state is returned unchanged) and without raising. -/
theorem c10_redis_no_fallback (inst : CMState) (args : InitArgs) (redisUpInit : Bool)
    (envVar : Option Nat) (now : Rat) (uid : String) (ctx upd : Ctx) (expiry : Option Nat)
    (hredis : inst.useRedis = true) :
    ContextManager.new (some inst) args redisUpInit envVar = inst
    ∧ ContextManager.get_context inst false now uid = (none, inst)
    ∧ ContextManager.set_context inst false now uid ctx expiry = (false, inst)
    ∧ ContextManager.append_to_context inst false now uid upd expiry = (false, inst) := by
  have hget : ContextManager.get_context inst false now uid = (none, inst) := by
    unfold ContextManager.get_context
    rw [if_pos hredis]
    rfl
  have hset : ∀ c, ContextManager.set_context inst false now uid c expiry = (false, inst) := by
    intro c
    unfold ContextManager.set_context
    rw [if_pos hredis]
    rfl
  have happ : ContextManager.append_to_context inst false now uid upd expiry
      = (false, inst) := by
    unfold ContextManager.append_to_context
    rw [hget]
    exact hset _
  exact ⟨rfl, hget, hset ctx, happ⟩

/-- Witness for C10 at a concrete Redis-backed instance. -/
theorem c10_redis_no_fallback_witness :
    cmRedisInstance.useRedis = true
    ∧ ContextManager.get_context cmRedisInstance false 0 "u1" = (none, cmRedisInstance)
    ∧ ContextManager.set_context cmRedisInstance false 0 "u1" [("a", "b")] none
        = (false, cmRedisInstance)
    ∧ ContextManager.append_to_context cmRedisInstance false 0 "u1" [("c", "d")] none
        = (false, cmRedisInstance) :=
  ⟨rfl,
   (c10_redis_no_fallback cmRedisInstance ⟨none, none⟩ false none 0 "u1" [("a", "b")]
     [("c", "d")] none rfl).2.1,
   (c10_redis_no_fallback cmRedisInstance ⟨none, none⟩ false none 0 "u1" [("a", "b")]
     [("c", "d")] none rfl).2.2.1,
   (c10_redis_no_fallback cmRedisInstance ⟨none, none⟩ false none 0 "u1" [("a", "b")]
     [("c", "d")] none rfl).2.2.2⟩

/-- Witness for C7 at the concrete successful run: 1.0 is published and the
final status is completed. -/
theorem c7_progress_invariant_witness :
    (1 : Rat) ∈ progressValues (run_crew_pipeline envBase).trace
    ∧ (run_crew_pipeline envBase).status = "completed" := by
  have hmem : (1 : Rat) ∈ progressValues (run_crew_pipeline envBase).trace := by
    rw [rcp_eq_success_viz envBase (by decide) (by decide) (by decide) (by decide)
      (by decide) (by decide) (by decide) (by decide) (by decide)]
    dsimp only
    simp only [progressValues_cons_progress, progressValues_cons_exec,
      progressValues_cons_status, progressValues_cons_llm, progressValues_nil,
      progressValues_append, progressValues_llm_cond, List.append_nil, List.nil_append]
    norm_num
  exact ⟨hmem, (c7_progress_invariant envBase).2.2 hmem⟩
